import Mathlib

/-!
Verification development for the SG108E management client (src/index.js).

The client scrapes a TP-Link SG108E switch's web UI.  This file gives a
shallow embedding of its pure parsing layer (extractTagContent,
extractVariable, extractAttribute, stripQuotes, the codec tables) and of the
five session operations (Info, SetSwitch, SetPort, SetVLAN, Diagnosis),
modelling the HTTP transport as an oracle indexed by call number and each
operation as a function returning the issued request trace together with an
Except value (JavaScript exceptions become Except.error carrying the error
name).

JavaScript semantics notes applied throughout the embedding:
  - a JS regex `match` is modelled by a deterministic scan that mirrors the
    exact backtracking behaviour of the concrete patterns built by the code;
  - `undefined` / `null` are modelled by `Option.none` at each use site;
  - `parseInt` returning NaN is modelled by `Option.none`;
  - array reads out of range give `none`; `arr[i] = v` extends with holes;
  - truthiness checks are modelled per JS rules (empty string and 0 falsy).
-/

set_option maxRecDepth 20000

/-- The single-quote character, `\x27`. -/
def sqc : Char := Char.ofNat 39

/-- Left-brace and right-brace characters. -/
def lbrace : Char := Char.ofNat 123

def rbrace : Char := Char.ofNat 125

/-- JS whitespace class `\s` (the subset that can occur in our inputs). -/
def isSpaceJS (c : Char) : Bool :=
  c = ' ' || c = '\t' || c = '\n' || c = '\r' || c = Char.ofNat 12 || c = Char.ofNat 11

/-- JS word character class `\w` used by the `\b` boundary: `[A-Za-z0-9_]`. -/
def isWordChar (c : Char) : Bool :=
  c.isAlpha || c.isDigit || c = '_'

/-- JS `String.prototype.trim` on a character list. -/
def jsTrim (cs : List Char) : List Char :=
  ((cs.dropWhile isSpaceJS).reverse.dropWhile isSpaceJS).reverse

/-- First occurrence of `pat` in the list: returns `(pre, suf)` with
`pre ++ suf` the input and `suf` starting with `pat`. -/
def subFind (pat : List Char) : List Char → Option (List Char × List Char)
  | [] => if pat = [] then some ([], []) else none
  | c :: cs =>
    if pat.isPrefixOf (c :: cs) then some ([], c :: cs)
    else
      match subFind pat cs with
      | some (pre, suf) => some (c :: pre, suf)
      | none => none

/-- Case-insensitive prefix test (JS regex `i` flag). -/
def isPrefixOfCI : List Char → List Char → Bool
  | [], _ => true
  | _ :: _, [] => false
  | p :: ps, c :: cs => p.toLower = c.toLower && isPrefixOfCI ps cs

/-- Case-insensitive first occurrence of `pat`. -/
def subFindCI (pat : List Char) : List Char → Option (List Char × List Char)
  | [] => if pat = [] then some ([], []) else none
  | c :: cs =>
    if isPrefixOfCI pat (c :: cs) then some ([], c :: cs)
    else
      match subFindCI pat cs with
      | some (pre, suf) => some (c :: pre, suf)
      | none => none

/-- stripQuotes (src/index.js:783): removes one matching pair of leading and
trailing double or single quotes.  A 1-character quote string collapses to ""
because the two `replace` calls run in sequence. -/
def stripQuotes (txt : String) : String :=
  let cs := txt.data
  let strip1 (q : Char) (l : List Char) : List Char :=
    -- value.replace(/^q/, '') then value.replace(/q$/, '')
    let l1 := match l with
      | c :: t => if c = q then t else l
      | [] => l
    match l1.getLast? with
    | some c => if c = q then l1.dropLast else l1
    | none => l1
  match cs.head?, cs.getLast? with
  | some a, some b =>
    if a = '"' && b = '"' then String.mk (strip1 '"' cs)
    else if a = sqc && b = sqc then String.mk (strip1 sqc cs)
    else txt
  | _, _ => txt

/-- Accumulate a decimal digit list into a natural number. -/
def digitsToNat (ds : List Char) : Nat :=
  ds.foldl (fun a c => a * 10 + (c.toNat - 48)) 0

/-- Hex digit test for JS `parseInt(_, 16)`. -/
def isHexDigit (c : Char) : Bool :=
  c.isDigit || ('a' ≤ c && c ≤ 'f') || ('A' ≤ c && c ≤ 'F')

def hexDigitVal (c : Char) : Nat :=
  if c.isDigit then c.toNat - 48
  else if 'a' ≤ c && c ≤ 'f' then c.toNat - 87
  else c.toNat - 55

def hexToNat (ds : List Char) : Nat :=
  ds.foldl (fun a c => a * 16 + hexDigitVal c) 0

/-- JS `parseInt(s)` (radix 10): skip whitespace, optional sign, maximal
digit run; NaN (none) if no digits. -/
def parseIntJS (s : String) : Option Int :=
  let cs := s.data.dropWhile isSpaceJS
  let (neg, cs1) : Bool × List Char :=
    match cs with
    | '-' :: t => (true, t)
    | '+' :: t => (false, t)
    | _ => (false, cs)
  let ds := cs1.takeWhile Char.isDigit
  if ds = [] then none
  else some ((if neg then (-1 : Int) else 1) * (digitsToNat ds : Int))

/-- JS `parseInt(s, 16)`: skip whitespace, optional sign, optional 0x/0X
prefix, maximal hex-digit run; NaN (none) if no digits. -/
def parseIntHexJS (s : String) : Option Int :=
  let cs := s.data.dropWhile isSpaceJS
  let (neg, cs1) : Bool × List Char :=
    match cs with
    | '-' :: t => (true, t)
    | '+' :: t => (false, t)
    | _ => (false, cs)
  let cs2 := match cs1 with
    | '0' :: x :: t => if x = 'x' || x = 'X' then t else cs1
    | _ => cs1
  let ds := cs2.takeWhile isHexDigit
  if ds = [] then none
  else some ((if neg then (-1 : Int) else 1) * (hexToNat ds : Int))

/-- JS ToUint32 (the bit pattern used by `&` and `<<`); NaN converts to 0. -/
def toUint32 (z : Int) : Nat :=
  (z % (2 ^ 32 : Int)).toNat

/-- JS `parseInt` applied to a possibly-undefined value: `parseInt(undefined)`
and `parseInt(null)` are NaN. -/
def parseIntOpt (o : Option String) : Option Int :=
  match o with
  | none => none
  | some s => parseIntJS s

-- ---------------------------------------------------------------------------
-- extractTagContent (src/index.js:687)
-- ---------------------------------------------------------------------------

/-- All non-overlapping matches of `<tag>([\s\S]*?)</tag>` (flags `gi`),
returned as full-match character lists.  Fuel bounds the recursion; it is
always called with more fuel than the text length. -/
def tagMatchesAux (openT closeT : List Char) : Nat → List Char → List (List Char)
  | 0, _ => []
  | fuel + 1, xs =>
    match subFindCI openT xs with
    | none => []
    | some (_, suf) =>
      let afterOpen := suf.drop openT.length
      match subFindCI closeT afterOpen with
      | none => []
      | some (between, suf2) =>
        let afterClose := suf2.drop closeT.length
        (openT ++ between ++ closeT) :: tagMatchesAux openT closeT fuel afterClose

/-- extractTagContent (src/index.js:687): text between the n-th opening and
the next closing occurrence of `tag`.  Note the source computes the suffix
to strip from the length of the ESCAPED close-tag string `<\/tag>` (one
character longer than the literal close tag `</tag>`), so the final
character of the content is also dropped. -/
def extractTagContent (txt tag : String) (n : Nat) : Option String :=
  let openT := ('<' :: tag.data) ++ ['>']
  let closeT := ('<' :: '/' :: tag.data) ++ ['>']
  let escCloseLen := tag.data.length + 4
  let ms := tagMatchesAux openT closeT (txt.data.length + 1) txt.data
  if ms.length ≤ n then none
  else
    match ms.get? n with
    | none => none
    | some m =>
      let afterOpen := m.drop openT.length
      some (String.mk (afterOpen.take (afterOpen.length - escCloseLen)))

-- ---------------------------------------------------------------------------
-- extractVariable (src/index.js:716)
-- ---------------------------------------------------------------------------

/-- Scan for the first occurrence of `pat` followed by `\s*=`; the value runs
lazily up to the first `;`.  Mirrors `new RegExp(variable + '\\s*=' +
'([\\s\\S]*?)' + ';')` applied by `txt.match`. -/
def extractVarAux (pat : List Char) : Nat → List Char → Option (List Char)
  | 0, _ => none
  | fuel + 1, xs =>
    match subFind pat xs with
    | none => none
    | some (_, suf) =>
      let after := (suf.drop pat.length).dropWhile isSpaceJS
      match after with
      | '=' :: rest =>
        match subFind [';'] rest with
        | some (between, _) => some between
        | none => none
      | _ => extractVarAux pat fuel (suf.drop 1)

/-- extractVariable (src/index.js:716): value of a bare `name = value;`
statement, trimmed.  The variable name is matched as a bare substring
(no word-boundary anchoring in the constructed regex). -/
def extractVariable (txt v : String) : Option String :=
  (extractVarAux v.data (txt.data.length + 1) txt.data).map
    (fun cs => String.mk (jsTrim cs))

-- ---------------------------------------------------------------------------
-- extractAttribute (src/index.js:745)
-- ---------------------------------------------------------------------------

/-- Word-boundary after a character class: boundary holds at the position
following a digit iff the next character is absent or not a word char. -/
def boundaryAfterDigit (l : List Char) : Bool :=
  match l with
  | [] => true
  | c :: _ => !isWordChar c

/-- The number alternative `\b(\d+\.?\d?)?\b` tried at a position whose first
character is a digit, with the exact backtracking order of the JS engine:
maximal digit run, optional dot, optional single digit, first candidate
whose following position is a word boundary.  Returns the captured group, or
none when only the empty match is possible. -/
def numMatch (cs : List Char) : Option (List Char) :=
  let ds := cs.takeWhile Char.isDigit
  match cs.drop ds.length with
  | [] => some ds
  | '.' :: rest2 =>
    match rest2 with
    | [] => some ds
    | d :: rest3 =>
      if d.isDigit then
        if boundaryAfterDigit rest3 then some (ds ++ ['.', d])
        else some (ds ++ ['.'])
      else if isWordChar d then some (ds ++ ['.'])
      else some ds
  | x :: _ => if isWordChar x then none else some ds

/-- Boolean alternative `\b(true|false)\b` at a word-char position. -/
def boolLit (cs : List Char) : Option (List Char) :=
  if cs.take 4 = ['t', 'r', 'u', 'e'] && boundaryAfterDigit (cs.drop 4) then
    some ['t', 'r', 'u', 'e']
  else if cs.take 5 = ['f', 'a', 'l', 's', 'e'] && boundaryAfterDigit (cs.drop 5) then
    some ['f', 'a', 'l', 's', 'e']
  else none

/-- The five value alternatives of extractAttribute, tried at the position
after `attribute\s*:\s*` (all whitespace skipped; the `\b` of the number
alternative can only hold there).  Results:
  - `none`: the whole regex fails at this occurrence (engine keeps scanning);
  - `some none`: the regex matches via the empty number alternative, all
    groups undefined, so the function returns null;
  - `some (some v)`: a group matched; `v` is the processed value
    (`match[i].trim()`, plus stripQuotes for the non-list non-dict groups). -/
def tryShapes (cs : List Char) : Option (Option String) :=
  match cs with
  | [] => none
  | c :: rest =>
    if c = sqc then
      match subFind [sqc] rest with
      | some (inner, _) => some (some (stripQuotes (String.mk (jsTrim inner))))
      | none => none
    else if isWordChar c then
      match boolLit (c :: rest) with
      | some b => some (some (stripQuotes (String.mk (jsTrim b))))
      | none =>
        if c.isDigit then
          match numMatch (c :: rest) with
          | some g => some (some (stripQuotes (String.mk (jsTrim g))))
          | none => some none
        else some none
    else if c = '[' then
      match subFind [']'] rest with
      | some (inner, _) => some (some (String.mk (jsTrim inner)))
      | none => none
    else if c = lbrace then
      match subFind [rbrace] rest with
      | some (inner, _) => some (some (String.mk (jsTrim inner)))
      | none => none
    else none

/-- Scan for the first occurrence of the attribute at which the whole regex
`attribute\s*:\s*(?:'([^']*)'|\b(true|false)\b|\b(\d+\.?\d?)?\b|\[([^\]]*)\]|\{([^}]*)\})`
matches. -/
def extractAttrAux (pat : List Char) : Nat → List Char → Option String
  | 0, _ => none
  | fuel + 1, xs =>
    match subFind pat xs with
    | none => none
    | some (_, suf) =>
      let after := (suf.drop pat.length).dropWhile isSpaceJS
      match after with
      | ':' :: rest =>
        match tryShapes (rest.dropWhile isSpaceJS) with
        | some (some v) => some v
        | some none => none
        | none => extractAttrAux pat fuel (suf.drop 1)
      | _ => extractAttrAux pat fuel (suf.drop 1)

/-- extractAttribute (src/index.js:745): value bound to `attribute:` in an
object-literal-like text, trying five shapes in fixed priority order. -/
def extractAttribute (txt attr : String) : Option String :=
  extractAttrAux attr.data (txt.data.length + 1) txt.data

-- ---------------------------------------------------------------------------
-- Codec tables (src/index.js:142-153) and JS helpers used by the domain code
-- ---------------------------------------------------------------------------

/-- SPEEDS (src/index.js:142). -/
def SPEEDS : List String :=
  ["down", "Auto", "10MH", "10MF", "100MH", "100MF", "1000MF", ""]

/-- SPEED2VALUE (src/index.js:143): object lookup, `none` for a key that is
not a property (JS `undefined`). -/
def SPEED2VALUE (s : String) : Option Nat :=
  if s = "down" then some 0
  else if s = "Auto" then some 1
  else if s = "10MH" then some 2
  else if s = "10MF" then some 3
  else if s = "100MH" then some 4
  else if s = "100MF" then some 5
  else if s = "1000MF" then some 6
  else if s = "" then some 7
  else none

/-- STATES (src/index.js:153) indexed by a JS number (possibly NaN):
`STATES[0] = 'Disabled'`, `STATES[1] = 'Enabled'`, anything else undefined. -/
def STATES_get (o : Option Int) : Option String :=
  match o with
  | some 0 => some "Disabled"
  | some 1 => some "Enabled"
  | _ => none

/-- A canonical JS array index: the string must be the canonical decimal
representation of the index (so `" 6"` or `"06"` are plain property names
and read as undefined). -/
def canonIdx (s : String) : Option Nat :=
  let cs := s.data
  if cs ≠ [] && cs.all Char.isDigit && (cs = ['0'] || cs.head? ≠ some '0') then
    some (digitsToNat cs)
  else none

/-- Lookup `SPEEDS[k]` where `k` is a possibly-undefined STRING (the source indexes
the array directly with an element of `split(',')`, without parseInt). -/
def SPEEDS_get (o : Option String) : Option String :=
  match o with
  | none => none
  | some s =>
    match canonIdx s with
    | some i => SPEEDS.get? i
    | none => none

/-- JS truthiness of a possibly-null string (`if (scrpt)`). -/
def jsTruthyOptStr (o : Option String) : Bool :=
  match o with
  | none => false
  | some s => s ≠ ""

/-- JS truthiness of a string. -/
def jsTruthyStr (s : String) : Bool := s ≠ ""

/-- JS truthiness of an integer-valued number. -/
def jsTruthyInt (z : Int) : Bool := z ≠ 0

/-- JS truthiness of a possibly-undefined number (`speedIndex` check in
SetPort): undefined and 0 are falsy. -/
def jsTruthyOptNat (o : Option Nat) : Bool :=
  match o with
  | none => false
  | some n => n ≠ 0

/-- JS `s.split(',')` on a character list: split at every comma, no limit;
the empty string gives a singleton list holding the empty string. -/
def splitCommaAux : List Char → List Char → List String
  | [], acc => [String.mk acc.reverse]
  | c :: cs, acc =>
    if c = ',' then String.mk acc.reverse :: splitCommaAux cs []
    else splitCommaAux cs (c :: acc)

/-- Call `value.split(',')` where value may be null: throws TypeError on null. -/
def splitJS (o : Option String) : Except String (List String) :=
  match o with
  | none => .error "TypeError"
  | some s => .ok (splitCommaAux s.data [])

/-- Call `stripQuotes(x)` where `x` may be null/undefined: `txt.startsWith`
throws TypeError on null. -/
def stripQuotesJS (o : Option String) : Except String String :=
  match o with
  | none => .error "TypeError"
  | some s => .ok (stripQuotes s)

/-- Loop bound `portIndex < ports` where `ports` is a JS number or NaN:
NaN and non-positive values give zero iterations. -/
def jsLoopCount (o : Option Int) : Nat :=
  match o with
  | none => 0
  | some z => z.toNat

/-- Assignment `arr[i] = v` on a JS array: in-range assignment sets, past-the-end
assignment extends the array, creating holes (`none`) in between. -/
def setIdxJS {α : Type} (arr : List (Option α)) (i : Nat) (v : α) : List (Option α) :=
  if i < arr.length then arr.set i (some v)
  else arr ++ List.replicate (i - arr.length) none ++ [some v]

/-- 32-bit value of a possibly-undefined hex string as used by
`parseInt(s, 16)` followed by bitwise `&` (ToInt32/ToUint32 bit pattern;
NaN becomes 0). -/
def hexValue32 (o : Option String) : Nat :=
  match o with
  | none => 0
  | some s =>
    match parseIntHexJS s with
    | none => 0
    | some z => toUint32 z

/-- VLAN membership decoding (src/index.js:651-673): for portIndex 0..15,
push portIndex+1 when bit portIndex of the parsed hex value is set. -/
def decodeMembers (o : Option String) : List Int :=
  ((List.range 16).filter (fun k => (hexValue32 o).testBit k)).map
    (fun (k : Nat) => (k : Int) + 1)

/-- The charset regex `/^[a-zA-Z0-9-_]+$/` used by SetSwitch and SetVLAN. -/
def regexTest (s : String) : Bool :=
  s ≠ "" && s.data.all (fun c => c.isAlpha || c.isDigit || c = '-' || c = '_')

-- ---------------------------------------------------------------------------
-- Domain objects built by the read path
-- ---------------------------------------------------------------------------

/-- One element of `swtch.ports` (fields absent until assigned). -/
structure PortObj where
  number : Int
  state : Option String := none
  speed : Option String := none
  link : Option String := none
  TxGoodPkt : Option Int := none
  TxBadPkt : Option Int := none
  RxGoodPkt : Option Int := none
  RxBadPkt : Option Int := none
deriving DecidableEq, Repr

/-- One element of `swtch.vlans`. -/
structure VlanObj where
  name : String
  id : Option Int
  tagged : List Int
  untagged : List Int
deriving DecidableEq, Repr

/-- The `swtch` object of `_switchInfo`: starts as `{}`, fields appear as
they are assigned.  Array fields are lists of possibly-hole elements, and
are themselves absent (`none`) until assigned. -/
structure SwitchObj where
  hardware : Option String := none
  fimrware : Option String := none
  name : Option String := none
  mac : Option String := none
  ip : Option String := none
  netmask : Option String := none
  gateway : Option String := none
  vlan : Option String := none
  ports : Option (List (Option PortObj)) := none
  vlans : Option (List (Option VlanObj)) := none
deriving DecidableEq, Repr

-- ---------------------------------------------------------------------------
-- Transport model: requests, fetch outcomes, traces
-- ---------------------------------------------------------------------------

/-- The requests the client can issue, one constructor per fetch site.
`Req.url` below rebuilds the exact URL string the source constructs. -/
inductive Req where
  | loginPost (server username password : String)
  | logoutGet (server : String)
  | sysInfoGet (server : String)
  | portInfo1Get (server : String)
  | portInfo2Get (server : String)
  | vlanInfoGet (server : String)
  | renameGet (server name : String)
  | vlanModeGet (server : String) (vlan : Int)
  | portSetGet (server : String) (portid state : Int) (speed : Nat)
  | vlanDelGet (server : String) (vid : Int)
  | vlanAddGet (server : String) (vid : Int) (name : String) (members : List Int)
deriving DecidableEq, Repr

/-- Per-port selector for the VLAN add/modify URL:
`members.includes(p) ? 1 : 2` (src/index.js:353-360). -/
def selType (members : List Int) (p : Int) : Nat :=
  if members.contains p then 1 else 2

/-- The URL string each request denotes, mirroring the concatenations in the
source (paths from src/index.js:132-140). -/
def Req.url : Req → String
  | .loginPost s _ _ => "http://" ++ s ++ ":80/logon.cgi"
  | .logoutGet s => "http://" ++ s ++ ":80/Logout.htm"
  | .sysInfoGet s => "http://" ++ s ++ ":80/SystemInfoRpm.htm"
  | .portInfo1Get s => "http://" ++ s ++ ":80/PortSettingRpm.htm"
  | .portInfo2Get s => "http://" ++ s ++ ":80/PortStatisticsRpm.htm"
  | .vlanInfoGet s => "http://" ++ s ++ ":80/Vlan8021QRpm.htm"
  | .renameGet s name => "http://" ++ s ++ ":80/system_name_set.cgi?sysName=" ++ name
  | .vlanModeGet s v =>
    "http://" ++ s ++ ":80/qvlanSet.cgi?qvlan_en=" ++ toString v ++ "&qvlan_mode=Apply"
  | .portSetGet s pid st spd =>
    "http://" ++ s ++ ":80/port_setting.cgi?portid=" ++ toString pid ++ "&state=" ++
      toString st ++ "&speed=" ++ toString spd ++ "&flowcontrol=0&apply=Apply"
  | .vlanDelGet s vid =>
    "http://" ++ s ++ ":80/qvlanSet.cgi?selVlans=" ++ toString vid ++ "&qvlan_del=Delete"
  | .vlanAddGet s vid name mem =>
    "http://" ++ s ++ ":80/qvlanSet.cgi?vid=" ++ toString vid ++ "&vname=" ++ name ++
      "&selType_1=" ++ toString (selType mem 1) ++ "&selType_2=" ++ toString (selType mem 2) ++
      "&selType_3=" ++ toString (selType mem 3) ++ "&selType_4=" ++ toString (selType mem 4) ++
      "&selType_5=" ++ toString (selType mem 5) ++ "&selType_6=" ++ toString (selType mem 6) ++
      "&selType_7=" ++ toString (selType mem 7) ++ "&selType_8=" ++ toString (selType mem 8) ++
      "&qvlan_add=Add%2FModify"

/-- HTTP method of each request (login is the only POST). -/
def Req.methodOf : Req → String
  | .loginPost _ _ _ => "POST"
  | _ => "GET"

/-- Outcome of one fetch: a response (status, body) or a thrown error
carrying the JS error name. -/
inductive FetchOutcome where
  | ok (status : Nat) (body : String)
  | err (errName : String)
deriving DecidableEq, Repr

def FetchOutcome.isOk : FetchOutcome → Bool
  | .ok _ _ => true
  | .err _ => false

def FetchOutcome.isErr : FetchOutcome → Bool
  | .ok _ _ => false
  | .err _ => true

/-- The transport oracle: outcome of the n-th fetch the process performs. -/
def Transport : Type := Nat → FetchOutcome

/-- Network state threaded through an operation: number of fetches done so
far and the trace of issued requests. -/
structure Net where
  k : Nat := 0
  trace : List Req := []
deriving DecidableEq, Repr

/-- Issue one fetch: the request enters the trace (it is sent) and the
oracle decides success or a thrown error. -/
def fetchStep (τ : Transport) (n : Net) (r : Req) : Net × Except String (Nat × String) :=
  let n2 : Net := { k := n.k + 1, trace := n.trace ++ [r] }
  match τ n.k with
  | .ok s b => (n2, .ok (s, b))
  | .err e => (n2, .error e)

instance {ε α : Type} [DecidableEq ε] [DecidableEq α] : DecidableEq (Except ε α) := fun a b =>
  match a, b with
  | .ok x, .ok y =>
    if h : x = y then isTrue (by rw [h])
    else isFalse (by intro hh; cases hh; exact h rfl)
  | .ok _, .error _ => isFalse (fun h => Except.noConfusion h)
  | .error _, .ok _ => isFalse (fun h => Except.noConfusion h)
  | .error x, .error y =>
    if h : x = y then isTrue (by rw [h])
    else isFalse (by intro hh; cases hh; exact h rfl)

def exceptIsOk {ε α : Type} : Except ε α → Bool
  | .ok _ => true
  | .error _ => false

def exceptIsErr {ε α : Type} : Except ε α → Bool
  | .ok _ => false
  | .error _ => true

-- ---------------------------------------------------------------------------
-- Read path: _portInfo1, _portInfo2, _vlanInfo, _switchInfo (src/index.js)
-- ---------------------------------------------------------------------------

/-- Loop body of _portInfo1 (src/index.js:524-532): allocate
`swtch.ports[portIndex] = {}` and fill number/state/speed.  Reading
`swtch.ports` while it is undefined throws TypeError. -/
def portInfo1Loop (states speeds : List String) :
    Nat → Nat → SwitchObj → Except String SwitchObj
  | 0, _, sw => .ok sw
  | fuel + 1, i, sw =>
    match sw.ports with
    | none => .error "TypeError"
    | some arr =>
      let obj : PortObj :=
        { number := (i : Int) + 1
          state := STATES_get (parseIntOpt (states.get? i))
          speed := SPEEDS_get (speeds.get? i) }
      portInfo1Loop states speeds fuel (i + 1) { sw with ports := some (setIdxJS arr i obj) }

/-- _portInfo1 (src/index.js:505): fetch the port-settings page and populate
`swtch.ports` from `max_port_num`, `state`, `spd_act`. -/
def portInfo1Run (τ : Transport) (n : Net) (server : String) (sw : SwitchObj) :
    Net × Except String SwitchObj :=
  let (n1, r1) := fetchStep τ n (.portInfo1Get server)
  match r1 with
  | .error e => (n1, .error e)
  | .ok (_, body) =>
    let scrpt := extractTagContent body "script" 0
    if jsTruthyOptStr scrpt then
      let sc := scrpt.getD ""
      let ports := parseIntOpt (extractVariable sc "max_port_num")
      (n1, do
        let states ← splitJS (extractAttribute sc "state")
        let speeds ← splitJS (extractAttribute sc "spd_act")
        portInfo1Loop states speeds (jsLoopCount ports) 0 sw)
    else (n1, .ok sw)

/-- Loop body of _portInfo2 (src/index.js:574-582): read
`swtch.ports[portIndex]` (TypeError when the array is undefined or the
element was never allocated) and fill link and the four counters. -/
def portInfo2Loop (links pkts : List String) :
    Nat → Nat → SwitchObj → Except String SwitchObj
  | 0, _, sw => .ok sw
  | fuel + 1, i, sw =>
    match sw.ports with
    | none => .error "TypeError"
    | some arr =>
      match arr.get? i with
      | some (some port) =>
        let port2 : PortObj :=
          { port with
            link := SPEEDS_get (links.get? i)
            TxGoodPkt := parseIntOpt (pkts.get? (4 * i + 0))
            TxBadPkt := parseIntOpt (pkts.get? (4 * i + 1))
            RxGoodPkt := parseIntOpt (pkts.get? (4 * i + 2))
            RxBadPkt := parseIntOpt (pkts.get? (4 * i + 3)) }
        portInfo2Loop links pkts fuel (i + 1) { sw with ports := some (arr.set i (some port2)) }
      | _ => .error "TypeError"

/-- _portInfo2 (src/index.js:555): fetch the port-statistics page and enrich
the already-allocated ports from `max_port_num`, `link_status`, `pkts`. -/
def portInfo2Run (τ : Transport) (n : Net) (server : String) (sw : SwitchObj) :
    Net × Except String SwitchObj :=
  let (n1, r1) := fetchStep τ n (.portInfo2Get server)
  match r1 with
  | .error e => (n1, .error e)
  | .ok (_, body) =>
    let scrpt := extractTagContent body "script" 0
    if jsTruthyOptStr scrpt then
      let sc := scrpt.getD ""
      let ports := parseIntOpt (extractVariable sc "max_port_num")
      (n1, do
        let links ← splitJS (extractAttribute sc "link_status")
        let pkts ← splitJS (extractAttribute sc "pkts")
        portInfo2Loop links pkts (jsLoopCount ports) 0 sw)
    else (n1, .ok sw)

/-- Loop body of _vlanInfo (src/index.js:644-674): allocate
`swtch.vlans[vlanIndex] = {}` and fill name, id, tagged, untagged. -/
def vlanLoop (vids names tag untag : List String) :
    Nat → Nat → SwitchObj → Except String SwitchObj
  | 0, _, sw => .ok sw
  | fuel + 1, i, sw =>
    match sw.vlans with
    | none => .error "TypeError"
    | some arr => do
      let nm ← stripQuotesJS (names.get? i)
      let obj : VlanObj :=
        { name := nm
          id := parseIntOpt (vids.get? i)
          tagged := decodeMembers (tag.get? i)
          untagged := decodeMembers (untag.get? i) }
      vlanLoop vids names tag untag fuel (i + 1) { sw with vlans := some (setIdxJS arr i obj) }

/-- _vlanInfo (src/index.js:621): fetch the VLAN page, set `swtch.vlan` from
`state` and populate `swtch.vlans` from count/vids/names/tagMbrs/untagMbrs. -/
def vlanInfoRun (τ : Transport) (n : Net) (server : String) (sw : SwitchObj) :
    Net × Except String SwitchObj :=
  let (n1, r1) := fetchStep τ n (.vlanInfoGet server)
  match r1 with
  | .error e => (n1, .error e)
  | .ok (_, body) =>
    let scrpt := extractTagContent body "script" 0
    if jsTruthyOptStr scrpt then
      let sc := scrpt.getD ""
      let sw1 := { sw with vlan := STATES_get (parseIntOpt (extractAttribute sc "state")) }
      let count := parseIntOpt (extractAttribute sc "count")
      (n1, do
        let vids ← splitJS (extractAttribute sc "vids")
        let names ← splitJS (extractAttribute sc "names")
        let tag ← splitJS (extractAttribute sc "tagMbrs")
        let untag ← splitJS (extractAttribute sc "untagMbrs")
        vlanLoop vids names tag untag (jsLoopCount count) 0 sw1)
    else (n1, .ok sw)

/-- _switchInfo (src/index.js:448): fetch the identity page, fill the switch
fields when the script block is present (each stripQuotes throws TypeError
when its attribute is missing), then run the three other page reads. -/
def switchInfoRun (τ : Transport) (n : Net) (server : String) :
    Net × Except String SwitchObj :=
  let (n1, r1) := fetchStep τ n (.sysInfoGet server)
  match r1 with
  | .error e => (n1, .error e)
  | .ok (_, body) =>
    let scrpt := extractTagContent body "script" 0
    let swE : Except String SwitchObj :=
      if jsTruthyOptStr scrpt then
        let sc := scrpt.getD ""
        do
          let hw ← stripQuotesJS (extractAttribute sc "hardwareStr")
          let fw ← stripQuotesJS (extractAttribute sc "firmwareStr")
          let nm ← stripQuotesJS (extractAttribute sc "descriStr")
          let mc ← stripQuotesJS (extractAttribute sc "macStr")
          let ip ← stripQuotesJS (extractAttribute sc "ipStr")
          let nk ← stripQuotesJS (extractAttribute sc "netmaskStr")
          let gw ← stripQuotesJS (extractAttribute sc "gatewayStr")
          pure { hardware := some hw, fimrware := some fw, name := some nm, mac := some mc,
                 ip := some ip, netmask := some nk, gateway := some gw,
                 vlan := some "Disabled", ports := some [], vlans := some [] }
      else .ok {}
    match swE with
    | .error e => (n1, .error e)
    | .ok sw =>
      let (n2, r2) := portInfo1Run τ n1 server sw
      match r2 with
      | .error e => (n2, .error e)
      | .ok sw2 =>
        let (n3, r3) := portInfo2Run τ n2 server sw2
        match r3 with
        | .error e => (n3, .error e)
        | .ok sw3 => vlanInfoRun τ n3 server sw3

-- ---------------------------------------------------------------------------
-- The five operations (src/index.js:165-369)
-- ---------------------------------------------------------------------------

/-- Info (src/index.js:234): login, read full state, logout.  There is no
try/finally: an error thrown by any step propagates immediately. -/
def InfoRun (τ : Transport) (server username password : String) :
    Net × Except String SwitchObj :=
  let (n1, r1) := fetchStep τ {} (.loginPost server username password)
  match r1 with
  | .error e => (n1, .error e)
  | .ok _ =>
    let (n2, r2) := switchInfoRun τ n1 server
    match r2 with
    | .error e => (n2, .error e)
    | .ok sw =>
      let (n3, r3) := fetchStep τ n2 (.logoutGet server)
      match r3 with
      | .error e => (n3, .error e)
      | .ok _ => (n3, .ok sw)

/-- The name validity check of SetSwitch (src/index.js:267), with JS
operator precedence applied: `(name && name !== '' && name.length < 32) ||
regex.test(name)`. -/
def setSwitchNameCond (name : String) : Bool :=
  (jsTruthyStr name && name ≠ "" && decide (name.length < 32)) || regexTest name

/-- The VLAN-mode validity check of SetSwitch (src/index.js:274):
`vlan && (vlan === 0 || vlan === 1)`. -/
def setSwitchVlanCond (vlan : Int) : Bool :=
  jsTruthyInt vlan && (vlan == 0 || vlan == 1)

/-- SetSwitch (src/index.js:260). -/
def SetSwitchRun (τ : Transport) (server username password name : String) (vlan : Int) :
    Net × Except String Unit :=
  let (n1, r1) := fetchStep τ {} (.loginPost server username password)
  match r1 with
  | .error e => (n1, .error e)
  | .ok _ =>
    let (n2, r2) :=
      if setSwitchNameCond name then
        let (m, r) := fetchStep τ n1 (.renameGet server name)
        (m, r.map fun _ => ())
      else (n1, .ok ())
    match r2 with
    | .error e => (n2, .error e)
    | .ok _ =>
      let (n3, r3) :=
        if setSwitchVlanCond vlan then
          let (m, r) := fetchStep τ n2 (.vlanModeGet server vlan)
          (m, r.map fun _ => ())
        else (n2, .ok ())
      match r3 with
      | .error e => (n3, .error e)
      | .ok _ =>
        let (n4, r4) := fetchStep τ n3 (.logoutGet server)
        match r4 with
        | .error e => (n4, .error e)
        | .ok _ => (n4, .ok ())

/-- The parameter check of SetPort (src/index.js:308):
`1 <= portIndex && portIndex <= 8 && (mode === 0 || mode === 1) && speedIndex`
(the last factor is a truthiness test on `SPEED2VALUE[speed]`). -/
def setPortCond (port state : Int) (speed : String) : Bool :=
  decide (1 ≤ port) && decide (port ≤ 8) && (state == 0 || state == 1) &&
    jsTruthyOptNat (SPEED2VALUE speed)

/-- SetPort (src/index.js:299). -/
def SetPortRun (τ : Transport) (server username password : String)
    (port state : Int) (speed : String) : Net × Except String Unit :=
  let (n1, r1) := fetchStep τ {} (.loginPost server username password)
  match r1 with
  | .error e => (n1, .error e)
  | .ok _ =>
    let (n2, r2) :=
      if setPortCond port state speed then
        let (m, r) :=
          fetchStep τ n1 (.portSetGet server port state ((SPEED2VALUE speed).getD 0))
        (m, r.map fun _ => ())
      else (n1, .ok ())
    match r2 with
    | .error e => (n2, .error e)
    | .ok _ =>
      let (n3, r3) := fetchStep τ n2 (.logoutGet server)
      match r3 with
      | .error e => (n3, .error e)
      | .ok _ => (n3, .ok ())

/-- The parameter check of SetVLAN (src/index.js:343):
`2 <= vlanIndex && vlanIndex <= 32 && name && name != '' && regex.test(name)
&& Array.isArray(members)` (the last conjunct always holds for a list). -/
def setVLANCond (vid : Int) (name : String) : Bool :=
  decide (2 ≤ vid) && decide (vid ≤ 32) && jsTruthyStr name && name ≠ "" && regexTest name

/-- SetVLAN (src/index.js:334): delete when the member list is empty,
add/modify otherwise. -/
def SetVLANRun (τ : Transport) (server username password : String)
    (vid : Int) (name : String) (members : List Int) : Net × Except String Unit :=
  let (n1, r1) := fetchStep τ {} (.loginPost server username password)
  match r1 with
  | .error e => (n1, .error e)
  | .ok _ =>
    let (n2, r2) :=
      if setVLANCond vid name then
        if members.length == 0 then
          let (m, r) := fetchStep τ n1 (.vlanDelGet server vid)
          (m, r.map fun _ => ())
        else
          let (m, r) := fetchStep τ n1 (.vlanAddGet server vid name members)
          (m, r.map fun _ => ())
      else (n1, .ok ())
    match r2 with
    | .error e => (n2, .error e)
    | .ok _ =>
      let (n3, r3) := fetchStep τ n2 (.logoutGet server)
      match r3 with
      | .error e => (n3, .error e)
      | .ok _ => (n3, .ok ())

/-- Result of the diagnosis probe: a connection-state string, or process
termination (`process.exit(1)`) for a non-AbortError transport failure. -/
inductive DiagResult where
  | state (s : String)
  | fatal
deriving DecidableEq, Repr

/-- Diagnosis (src/index.js:165): the whole probe sits in one try/catch;
an AbortError is swallowed (the current connection_state is returned), any
other error is fatal.  The login fetch carries a 1000 ms AbortSignal. -/
def DiagnosisRun (τ : Transport) (server username password : String) :
    Net × DiagResult :=
  let (n1, r1) := fetchStep τ {} (.loginPost server username password)
  match r1 with
  | .error e => (n1, if e = "AbortError" then .state "not accessible" else .fatal)
  | .ok _ =>
    let (n2, r2) := fetchStep τ n1 (.sysInfoGet server)
    match r2 with
    | .error e => (n2, if e = "AbortError" then .state "not authorized" else .fatal)
    | .ok (status2, _) =>
      let st := if status2 == 200 then "authorized" else "not authorized"
      let (n3, r3) := fetchStep τ n2 (.logoutGet server)
      match r3 with
      | .error e => (n3, if e = "AbortError" then .state st else .fatal)
      | .ok _ => (n3, .state st)

-- ---------------------------------------------------------------------------
-- Concrete transports used in the theorems
-- ---------------------------------------------------------------------------

/-- Transport where every fetch succeeds with status 200 and an empty body. -/
def tOK : Transport := fun _ => .ok 200 ""

def sysBody : String :=
  "<script>var info = 1;\nhardwareStr: [\"h3\"], firmwareStr: [\"f1\"], descriStr: [\"nm\"], macStr: [\"mc\"], ipStr: [\"ip\"], netmaskStr: [\"nk\"], gatewayStr: [\"gw\"];\n</script>"

def setBody0 : String :=
  "<script>var max_port_num = 0;\nstate: [1], spd_act: [0];\n</script>"

def setBody1 : String :=
  "<script>var max_port_num = 1;\nstate: [1, 1], spd_act: [5, 0];\n</script>"

def statBody8 : String :=
  "<script>var max_port_num = 8;\nlink_status: [0], pkts: [0];\n</script>"

def statBody3 : String :=
  "<script>var max_port_num = 3;\nlink_status: [5, 0, 0], pkts: [9, 1, 2, 3, 4];\n</script>"

def statBody1 : String :=
  "<script>var max_port_num = 1;\nlink_status: [5], pkts: [9, 1, 2, 3];\n</script>"

def tC2 : Transport := fun k =>
  .ok 200 (if k == 1 then sysBody else if k == 2 then setBody0 else if k == 3 then statBody8 else "")

def tC2b : Transport := fun k =>
  .ok 200 (if k == 1 then "<script>var x = 1;\n</script>" else "")

def tC2c : Transport := fun k =>
  .ok 200 (if k == 1 then sysBody else if k == 2 then setBody1 else if k == 3 then statBody3 else "")

def tC2good : Transport := fun k =>
  .ok 200 (if k == 1 then sysBody else if k == 2 then setBody1 else if k == 3 then statBody1 else "")

/-- The single-quote character as a one-character string. -/
def sQuote : String := String.mk [sqc]

/-- The fully-enriched port object produced by the matching-page scenario. -/
def goodPort : PortObj :=
  { number := 1, state := some "Enabled", speed := some "100MF", link := some "100MF",
    TxGoodPkt := some 9, TxBadPkt := some 1, RxGoodPkt := some 2, RxBadPkt := some 3 }

/-- The fully-populated switch object produced by the matching-page scenario. -/
def goodSwitch : SwitchObj :=
  { hardware := some "h3", fimrware := some "f1", name := some "nm", mac := some "mc",
    ip := some "ip", netmask := some "nk", gateway := some "gw", vlan := some "Disabled",
    ports := some [some goodPort], vlans := some [] }

/-- A 40-character charset-valid name. -/
def name40 : String := "aaaaaaaaaaaaaaaaaaaaaaaaaaaaaaaaaaaaaaaa"

/-- Transport where login succeeds and every later fetch throws. -/
def tC1 : Transport := fun k => if k == 0 then .ok 200 "" else .err "FetchError"

/-- Transport where every fetch throws an AbortError (connection timeout). -/
def tC8 : Transport := fun _ => .err "AbortError"

-- ---------------------------------------------------------------------------
-- Claim theorems
-- ---------------------------------------------------------------------------

/-- C9: extractAttribute tries the five value shapes in priority order
(single-quoted string, boolean, bare number, bracketed list, brace dict),
unwraps quotes for the scalar shapes, returns raw unparsed inner text for
list/dict, and yields none when no shape matches; in particular, on
`state: [1, 1, 1, 1, 1, 1, 1, 1, 0, 0]` with key `state` it returns the raw
text `1, 1, 1, 1, 1, 1, 1, 1, 0, 0`. -/
theorem C9_extractAttribute_shapes :
    extractAttribute "state: [1, 1, 1, 1, 1, 1, 1, 1, 0, 0]" "state" =
      some "1, 1, 1, 1, 1, 1, 1, 1, 0, 0"
  ∧ extractAttribute ("x: " ++ sQuote ++ "abc" ++ sQuote ++ ", y: 2") "x" = some "abc"
  ∧ extractAttribute "x: true, y: 2" "x" = some "true"
  ∧ extractAttribute "x: false, y: 2" "x" = some "false"
  ∧ extractAttribute "x: 37, y: 2" "x" = some "37"
  ∧ extractAttribute "x: \x7ba: 1\x7d, y: 2" "x" = some "a: 1"
  ∧ extractAttribute ("x: " ++ sQuote ++ "abc" ++ sQuote) "q" = none
  ∧ extractAttribute "x: ," "x" = none := by
  decide

/-- C10: extractVariable matches the variable name as a bare substring with
no word-boundary anchoring, returning the trimmed text between the first
occurrence of `name =` anywhere in the text and the next semicolon; on
`var max_port_num = 8;` with name `port_num` it returns `8`, the value of
the longer variable, even when an exact `port_num = 3;` appears later. -/
theorem C10_extractVariable_bare_substring :
    extractVariable "var max_port_num = 8;" "port_num" = some "8"
  ∧ extractVariable "var max_port_num = 8;\nvar port_num = 3;" "port_num" = some "8"
  ∧ extractVariable "a = 1; b = 2;" "b" = some "2"
  ∧ extractVariable "var x = 1;" "y" = none := by
  decide

/-- C6 counterexample: the decode loop runs over bit positions 0..15, so the
hex string `100` (bit 8 set) decodes to port 9 — bits 8..15 are NOT ignored
and can contribute ports outside 1..8. -/
theorem C6_counterexample_bit8 :
    decodeMembers (some "100") = [9] ∧ (8 : Int) < 9 := by
  decide

/-- C3: on the 40-character charset-valid name (with a VLAN flag of 2 so the
VLAN sub-operation is skipped) SetSwitch DOES issue the rename GET, because
the charset test is OR-ed with the emptiness/length tests by JS operator
precedence; the claim (and spec) require all three conditions conjunctively,
so no rename should be sent for a name of length ≥ 32. -/
theorem C3_rename_sent_for_long_name :
    (SetSwitchRun tOK "sw" "u" "p" name40 2).1.trace =
      [.loginPost "sw" "u" "p", .renameGet "sw" name40, .logoutGet "sw"]
  ∧ 32 ≤ name40.length
  ∧ regexTest name40 = true
  ∧ setSwitchNameCond name40 = true := by
  decide

/-- C4 counterexample: with the VLAN flag exactly 0 (a value the claim says
triggers the mode-toggle GET) no qvlanSet request is issued — `vlan &&`
makes 0 falsy, so the whole guard fails. -/
theorem C4_counterexample_zero_skipped :
    (SetSwitchRun tOK "sw" "u" "p" "" 0).1.trace =
      [.loginPost "sw" "u" "p", .logoutGet "sw"]
  ∧ Req.vlanModeGet "sw" 0 ∉ (SetSwitchRun tOK "sw" "u" "p" "" 0).1.trace := by
  decide

/-- C5 counterexample: the empty-string "unset" placeholder maps to speed
index 7, which is truthy, so SetPort with speed `""` DOES issue the
configure GET (encoding speed 7) — the claim says the unset placeholder is
rejected. -/
theorem C5_counterexample_unset_accepted :
    (SetPortRun tOK "sw" "u" "p" 4 0 "").1.trace =
      [.loginPost "sw" "u" "p", .portSetGet "sw" 4 0 7, .logoutGet "sw"]
  ∧ SPEED2VALUE "" = some 7 := by
  decide

/-- C1 counterexample: when login succeeds and the very next GET of the read
step throws, Info propagates the error and the logout request is never
issued — there is no scoped release around the authenticated region. -/
theorem C1_counterexample_no_logout_on_error :
    (InfoRun tC1 "sw" "u" "p").2 = .error "FetchError"
  ∧ (InfoRun tC1 "sw" "u" "p").1.trace = [.loginPost "sw" "u" "p", .sysInfoGet "sw"]
  ∧ Req.logoutGet "sw" ∉ (InfoRun tC1 "sw" "u" "p").1.trace := by
  decide

/-- C8 counterexample: when the login POST times out (AbortError), Diagnosis
returns "not accessible" but no logout request is ever issued — logout is
not attempted on every probe exit, only on the path where login and the
switch-info GET both complete. -/
theorem C8_counterexample_no_logout_on_timeout :
    (DiagnosisRun tC8 "sw" "u" "p").2 = .state "not accessible"
  ∧ (DiagnosisRun tC8 "sw" "u" "p").1.trace = [.loginPost "sw" "u" "p"]
  ∧ Req.logoutGet "sw" ∉ (DiagnosisRun tC8 "sw" "u" "p").1.trace := by
  decide

/-- C2 counterexample: a statistics page announcing 8 ports while the
settings page allocated none makes the read THROW a TypeError (aborting
before the VLAN fetch and before logout) — the condition is a crash, not an
explicitly-guarded error; the last conjunct exhibits the unallocated-index
TypeError in the statistics loop itself. -/
theorem C2_counterexample_unallocated_port_crash :
    (InfoRun tC2 "sw" "u" "p").2 = .error "TypeError"
  ∧ (InfoRun tC2 "sw" "u" "p").1.trace =
      [.loginPost "sw" "u" "p", .sysInfoGet "sw", .portInfo1Get "sw", .portInfo2Get "sw"]
  ∧ portInfo2Loop ["0"] ["0"] 8 0 { ports := some [] } = .error "TypeError" := by
  decide

/-- C2 amended: parse misses degrade gracefully only at the script-tag
level — a page with no script block leaves its fields unset and the read
continues to a partially-populated result.  A missing expected attribute
inside a present script throws a TypeError that aborts the whole read, and a
statistics page referencing a port index not allocated from the settings
page likewise throws a TypeError; it is not guarded against.  With matching
page data the ports allocated from the settings page are enriched in place
by index from the statistics page. -/
theorem C2_amended_parse_miss_behaviour :
    (InfoRun tOK "sw" "u" "p").2 = .ok {}
  ∧ (InfoRun tOK "sw" "u" "p").1.trace =
      [.loginPost "sw" "u" "p", .sysInfoGet "sw", .portInfo1Get "sw", .portInfo2Get "sw",
        .vlanInfoGet "sw", .logoutGet "sw"]
  ∧ (InfoRun tC2b "sw" "u" "p").2 = .error "TypeError"
  ∧ (InfoRun tC2c "sw" "u" "p").2 = .error "TypeError"
  ∧ (InfoRun tC2good "sw" "u" "p").2 = .ok goodSwitch := by
  decide

/-- Helper: the VLAN-mode guard of SetSwitch holds exactly for the value 1. -/
theorem setSwitchVlanCond_iff (vlan : Int) : setSwitchVlanCond vlan = true ↔ vlan = 1 := by
  simp only [setSwitchVlanCond, jsTruthyInt, Bool.and_eq_true, Bool.or_eq_true,
    decide_eq_true_eq, beq_iff_eq]
  omega

/-- Helper: the VLAN-mode guard as an if-expression on the flag value. -/
theorem setSwitchVlanCond_eq (vlan : Int) :
    setSwitchVlanCond vlan = (if vlan = 1 then true else false) := by
  by_cases h : vlan = 1
  · subst h
    simp only [if_pos rfl]
    decide
  · simp only [if_neg h]
    rw [Bool.eq_false_iff]
    intro hc
    exact h ((setSwitchVlanCond_iff vlan).mp hc)

/-- C6 amended: the decoded membership list contains exactly the ports p in
1..16 whose bit (p-1) is set in the parsed (32-bit-wrapped) value; bits 8..15
are not ignored.  For 8-bit inputs this coincides with the claim: FF decodes
to ports 1..8, AA to 2,4,6,8 and 00 to the empty set. -/
theorem C6_amended_decode (o : Option String) (p : Int) :
    (p ∈ decodeMembers o ↔ ∃ k : Nat, k < 16 ∧ (hexValue32 o).testBit k ∧ p = (k : Int) + 1)
  ∧ decodeMembers (some "FF") = [1, 2, 3, 4, 5, 6, 7, 8]
  ∧ decodeMembers (some "AA") = [2, 4, 6, 8]
  ∧ decodeMembers (some "00") = [] := by
  refine ⟨?_, by decide, by decide, by decide⟩
  constructor
  · intro hp
    rcases List.mem_map.mp hp with ⟨k, hk2, rfl⟩
    rcases List.mem_filter.mp hk2 with ⟨hkr, hbit⟩
    exact ⟨k, List.mem_range.mp hkr, hbit, rfl⟩
  · rintro ⟨k, hk, hbit, rfl⟩
    exact List.mem_map.mpr ⟨k, List.mem_filter.mpr ⟨List.mem_range.mpr hk, hbit⟩, rfl⟩

/-- C4 amended: the VLAN-mode-toggle GET is issued exactly when the vlan
flag is exactly 1 — the value 0, though nominally valid, is silently skipped
by the leading truthiness test — and the name and vlan sub-operations remain
independent (the trace decomposes into independent optional segments);
invalid values are silently skipped rather than rejected. -/
theorem C4_amended_vlan_toggle (s u p name : String) (vlan : Int) :
    ((SetSwitchRun tOK s u p name vlan).1.trace =
      [Req.loginPost s u p] ++
        (if setSwitchNameCond name = true then [Req.renameGet s name] else []) ++
        (if vlan = 1 then [Req.vlanModeGet s vlan] else []) ++ [Req.logoutGet s])
  ∧ (Req.vlanModeGet s vlan ∈ (SetSwitchRun tOK s u p name vlan).1.trace ↔ vlan = 1)
  ∧ (setSwitchVlanCond vlan = true ↔ vlan = 1)
  ∧ exceptIsOk (SetSwitchRun tOK s u p name vlan).2 = true := by
  have htr : (SetSwitchRun tOK s u p name vlan).1.trace =
      [Req.loginPost s u p] ++
        (if setSwitchNameCond name = true then [Req.renameGet s name] else []) ++
        (if vlan = 1 then [Req.vlanModeGet s vlan] else []) ++ [Req.logoutGet s] := by
    by_cases hn : setSwitchNameCond name <;>
      by_cases h1 : vlan = 1 <;>
      simp [SetSwitchRun, fetchStep, tOK, Except.map, hn, h1, setSwitchVlanCond_eq]
  refine ⟨htr, ?_, setSwitchVlanCond_iff vlan, ?_⟩
  · rw [htr]
    by_cases hn : setSwitchNameCond name <;> by_cases h1 : vlan = 1 <;> simp [hn, h1]
  · by_cases hn : setSwitchNameCond name <;>
      by_cases h1 : vlan = 1 <;>
      simp [SetSwitchRun, fetchStep, tOK, Except.map, exceptIsOk, hn, h1, setSwitchVlanCond_eq]

/-- Helper: the speed factor of the SetPort guard holds exactly for the
seven truthy-indexed members of the speed table (index 0, `down`, is falsy
and behaves as unrecognized; the empty-string placeholder has index 7 and is
accepted). -/
theorem speedTruthy_iff (sp : String) :
    jsTruthyOptNat (SPEED2VALUE sp) = true ↔
      sp ∈ (["Auto", "10MH", "10MF", "100MH", "100MF", "1000MF", ""] : List String) := by
  simp only [SPEED2VALUE]
  split_ifs with h1 h2 h3 h4 h5 h6 h7 h8 <;>
    first
      | (subst h1; decide)
      | (subst h2; decide)
      | (subst h3; decide)
      | (subst h4; decide)
      | (subst h5; decide)
      | (subst h6; decide)
      | (subst h7; decide)
      | (subst h8; decide)
      | simp [jsTruthyOptNat, h1, h2, h3, h4, h5, h6, h7, h8]

/-- C5 amended: SetPort issues its single configure GET (portid, state,
numeric speed index, flowcontrol=0) exactly when the port is in 1..8, the
state is exactly 0 or 1 and SPEED2VALUE[speed] is truthy — i.e. speed is
one of Auto/10MH/10MF/100MH/100MF/1000MF or the empty-string placeholder
(index 7); `down` (index 0) is rejected as falsy.  Port 9 is rejected, and
port 4 with state 0 and speed 100MH is accepted encoding speed index 4. -/
theorem C5_amended_port_configure (s u p : String) (port st : Int) (sp : String) :
    ((SetPortRun tOK s u p port st sp).1.trace =
      [Req.loginPost s u p] ++
        (if setPortCond port st sp = true
          then [Req.portSetGet s port st ((SPEED2VALUE sp).getD 0)] else []) ++
      [Req.logoutGet s])
  ∧ (setPortCond port st sp = true ↔
      1 ≤ port ∧ port ≤ 8 ∧ (st = 0 ∨ st = 1) ∧
        sp ∈ (["Auto", "10MH", "10MF", "100MH", "100MF", "1000MF", ""] : List String))
  ∧ (SetPortRun tOK s u p 9 1 "Auto").1.trace = [Req.loginPost s u p, Req.logoutGet s]
  ∧ (SetPortRun tOK s u p 4 0 "100MH").1.trace =
      [Req.loginPost s u p, Req.portSetGet s 4 0 4, Req.logoutGet s] := by
  refine ⟨?_, ?_, ?_, ?_⟩
  · by_cases hc : setPortCond port st sp <;>
      simp [SetPortRun, fetchStep, tOK, Except.map, hc]
  · simp only [setPortCond, Bool.and_eq_true, decide_eq_true_eq, Bool.or_eq_true, beq_iff_eq,
      speedTruthy_iff, and_assoc]
  · simp [SetPortRun, fetchStep, tOK, Except.map,
      show setPortCond 9 1 "Auto" = false from by decide]
  · simp [SetPortRun, fetchStep, tOK, Except.map,
      show setPortCond 4 0 "100MH" = true from by decide,
      show (SPEED2VALUE "100MH").getD 0 = 4 from by decide]

/-- C7: for ids outside 2..32 (in particular the reserved id 1 and id 33) or
an invalid name no VLAN request is issued; for a valid id and a valid
charset-matching non-empty name, an empty member list issues exactly one
delete GET and a non-empty member list issues exactly one add-or-modify GET
whose eight selType parameters are 1 for members and 2 for non-members. -/
theorem C7_setvlan_requests (s u p : String) (vid : Int) (name : String) (mem : List Int) :
    ((SetVLANRun tOK s u p vid name mem).1.trace =
      [Req.loginPost s u p] ++
        (if setVLANCond vid name = true then
          (if mem = [] then [Req.vlanDelGet s vid] else [Req.vlanAddGet s vid name mem])
          else []) ++
      [Req.logoutGet s])
  ∧ (setVLANCond vid name = true ↔ (2 ≤ vid ∧ vid ≤ 32 ∧ name ≠ "" ∧ regexTest name = true))
  ∧ (∀ q : Int, selType mem q = if q ∈ mem then 1 else 2)
  ∧ (SetVLANRun tOK s u p 1 "ops-1" [2, 4]).1.trace = [Req.loginPost s u p, Req.logoutGet s]
  ∧ (SetVLANRun tOK s u p 33 "ops-1" [2, 4]).1.trace = [Req.loginPost s u p, Req.logoutGet s]
  ∧ (SetVLANRun tOK s u p 5 "ops-1" [2, 4]).1.trace =
      [Req.loginPost s u p, Req.vlanAddGet s 5 "ops-1" [2, 4], Req.logoutGet s]
  ∧ (SetVLANRun tOK s u p 5 "ops-1" []).1.trace =
      [Req.loginPost s u p, Req.vlanDelGet s 5, Req.logoutGet s] := by
  refine ⟨?_, ?_, ?_, ?_, ?_, ?_, ?_⟩
  · by_cases hc : setVLANCond vid name <;> by_cases hm : mem = [] <;>
      simp [SetVLANRun, fetchStep, tOK, Except.map, hc, hm]
  · simp only [setVLANCond, jsTruthyStr, Bool.and_eq_true, decide_eq_true_eq, ne_eq]
    constructor
    · rintro ⟨⟨⟨⟨h2, h32⟩, hne⟩, _⟩, hre⟩
      exact ⟨h2, h32, hne, hre⟩
    · rintro ⟨h2, h32, hne, hre⟩
      exact ⟨⟨⟨⟨h2, h32⟩, hne⟩, hne⟩, hre⟩
  · intro q
    by_cases hq : q ∈ mem <;> simp [selType, hq, List.elem_iff]
  · simp [SetVLANRun, fetchStep, tOK, Except.map,
      show setVLANCond 1 "ops-1" = false from by decide]
  · simp [SetVLANRun, fetchStep, tOK, Except.map,
      show setVLANCond 33 "ops-1" = false from by decide]
  · simp [SetVLANRun, fetchStep, tOK, Except.map,
      show setVLANCond 5 "ops-1" = true from by decide]
  · simp [SetVLANRun, fetchStep, tOK, Except.map,
      show setVLANCond 5 "ops-1" = true from by decide]

/-- Helper: an empty body contains no script tag. -/
theorem extractTagContent_empty : extractTagContent "" "script" 0 = none := by decide

/-- C1 amended: there is no scoped acquisition/release around the session.
Logout is issued only on the path where login and the intervening
read/modify step complete without throwing: whenever the first request after
login throws, every operation propagates the error and its trace contains no
logout request; with an all-ok transport every operation's final request is
the logout GET. -/
theorem C1_amended_no_scoped_logout (τ : Transport) (s u p name speed vname : String)
    (vlan port st vid : Int) (mem : List Int) :
    ((τ 0).isOk = true → (τ 1).isErr = true →
      exceptIsErr (InfoRun τ s u p).2 = true ∧
      (InfoRun τ s u p).1.trace = [Req.loginPost s u p, Req.sysInfoGet s])
  ∧ (setSwitchNameCond name = true → (τ 0).isOk = true → (τ 1).isErr = true →
      exceptIsErr (SetSwitchRun τ s u p name vlan).2 = true ∧
      (SetSwitchRun τ s u p name vlan).1.trace =
        [Req.loginPost s u p, Req.renameGet s name])
  ∧ (setPortCond port st speed = true → (τ 0).isOk = true → (τ 1).isErr = true →
      exceptIsErr (SetPortRun τ s u p port st speed).2 = true ∧
      (SetPortRun τ s u p port st speed).1.trace =
        [Req.loginPost s u p, Req.portSetGet s port st ((SPEED2VALUE speed).getD 0)])
  ∧ (setVLANCond vid vname = true → (τ 0).isOk = true → (τ 1).isErr = true →
      exceptIsErr (SetVLANRun τ s u p vid vname mem).2 = true ∧
      (SetVLANRun τ s u p vid vname mem).1.trace =
        [Req.loginPost s u p,
          if mem = [] then Req.vlanDelGet s vid else Req.vlanAddGet s vid vname mem])
  ∧ ((InfoRun tOK s u p).1.trace.getLast? = some (Req.logoutGet s)
      ∧ (SetSwitchRun tOK s u p name vlan).1.trace.getLast? = some (Req.logoutGet s)
      ∧ (SetPortRun tOK s u p port st speed).1.trace.getLast? = some (Req.logoutGet s)
      ∧ (SetVLANRun tOK s u p vid vname mem).1.trace.getLast? = some (Req.logoutGet s)) := by
  refine ⟨?_, ?_, ?_, ?_, ?_, ?_, ?_, ?_⟩
  · intro h0 h1
    cases hτ0 : τ 0 with
    | err e0 => rw [hτ0] at h0; simp [FetchOutcome.isOk] at h0
    | ok st0 b0 =>
      cases hτ1 : τ 1 with
      | ok st1 b1 => rw [hτ1] at h1; simp [FetchOutcome.isErr] at h1
      | err e1 =>
        simp [InfoRun, switchInfoRun, fetchStep, hτ0, hτ1, exceptIsErr]
  · intro hc h0 h1
    cases hτ0 : τ 0 with
    | err e0 => rw [hτ0] at h0; simp [FetchOutcome.isOk] at h0
    | ok st0 b0 =>
      cases hτ1 : τ 1 with
      | ok st1 b1 => rw [hτ1] at h1; simp [FetchOutcome.isErr] at h1
      | err e1 =>
        simp [SetSwitchRun, fetchStep, Except.map, hτ0, hτ1, hc, exceptIsErr]
  · intro hc h0 h1
    cases hτ0 : τ 0 with
    | err e0 => rw [hτ0] at h0; simp [FetchOutcome.isOk] at h0
    | ok st0 b0 =>
      cases hτ1 : τ 1 with
      | ok st1 b1 => rw [hτ1] at h1; simp [FetchOutcome.isErr] at h1
      | err e1 =>
        simp [SetPortRun, fetchStep, Except.map, hτ0, hτ1, hc, exceptIsErr]
  · intro hc h0 h1
    cases hτ0 : τ 0 with
    | err e0 => rw [hτ0] at h0; simp [FetchOutcome.isOk] at h0
    | ok st0 b0 =>
      cases hτ1 : τ 1 with
      | ok st1 b1 => rw [hτ1] at h1; simp [FetchOutcome.isErr] at h1
      | err e1 =>
        by_cases hm : mem = [] <;>
          simp [SetVLANRun, fetchStep, Except.map, hτ0, hτ1, hc, hm, exceptIsErr]
  · simp [InfoRun, switchInfoRun, portInfo1Run, portInfo2Run, vlanInfoRun, fetchStep, tOK,
      extractTagContent_empty, jsTruthyOptStr]
  · by_cases hn : setSwitchNameCond name <;>
      by_cases hv : setSwitchVlanCond vlan <;>
      simp [SetSwitchRun, fetchStep, tOK, Except.map, hn, hv]
  · by_cases hc : setPortCond port st speed <;>
      simp [SetPortRun, fetchStep, tOK, Except.map, hc]
  · by_cases hc : setVLANCond vid vname <;> by_cases hm : mem = [] <;>
      simp [SetVLANRun, fetchStep, tOK, Except.map, hc, hm]

/-- Transport: login succeeds, everything after throws. -/
def tW : Transport := fun k => if k == 0 then .ok 200 "" else .err "E"

/-- Witness for C1 amended at concrete inputs: login ok, the middle request
throws, and each operation aborts with no logout in its trace. -/
theorem C1_amended_witness :
    (exceptIsErr (InfoRun tW "sw" "u" "p").2 = true ∧
      (InfoRun tW "sw" "u" "p").1.trace = [Req.loginPost "sw" "u" "p", Req.sysInfoGet "sw"])
  ∧ (exceptIsErr (SetSwitchRun tW "sw" "u" "p" "abc" 1).2 = true ∧
      (SetSwitchRun tW "sw" "u" "p" "abc" 1).1.trace =
        [Req.loginPost "sw" "u" "p", Req.renameGet "sw" "abc"])
  ∧ (exceptIsErr (SetPortRun tW "sw" "u" "p" 4 0 "Auto").2 = true ∧
      (SetPortRun tW "sw" "u" "p" 4 0 "Auto").1.trace =
        [Req.loginPost "sw" "u" "p", Req.portSetGet "sw" 4 0 ((SPEED2VALUE "Auto").getD 0)])
  ∧ (exceptIsErr (SetVLANRun tW "sw" "u" "p" 5 "vn" [2]).2 = true ∧
      (SetVLANRun tW "sw" "u" "p" 5 "vn" [2]).1.trace =
        [Req.loginPost "sw" "u" "p", Req.vlanAddGet "sw" 5 "vn" [2]])
  ∧ (InfoRun tOK "sw" "u" "p").1.trace.getLast? = some (Req.logoutGet "sw") := by
  have h := C1_amended_no_scoped_logout tW "sw" "u" "p" "abc" "Auto" "vn" 1 4 0 5 [2]
  have h5 := (C1_amended_no_scoped_logout tOK "sw" "u" "p" "abc" "Auto" "vn" 1 4 0 5
    [2]).2.2.2.2.1
  refine ⟨h.1 (by decide) (by decide), h.2.1 (by decide) (by decide) (by decide),
    h.2.2.1 (by decide) (by decide) (by decide), ?_, h5⟩
  have h4 := h.2.2.2.1 (by decide) (by decide) (by decide)
  simpa using h4

/-- C8 amended: Diagnosis starts at "not accessible"; a login AbortError
(the 1 s connect timeout) returns that state with no logout attempted; any
other login error is fatal for the process; after a successful login POST
the state is "not authorized", and the probe reaches "authorized" exactly
when the switch-info GET returns HTTP status 200; the logout request is
issued exactly on the paths where login and the switch-info GET both
complete without throwing (a non-AbortError logout failure is still fatal). -/
theorem C8_amended_states (τ : Transport) (s u p : String) :
    (τ 0 = .err "AbortError" →
      (DiagnosisRun τ s u p).2 = .state "not accessible" ∧
      (DiagnosisRun τ s u p).1.trace = [Req.loginPost s u p])
  ∧ (∀ e, e ≠ "AbortError" → τ 0 = .err e → (DiagnosisRun τ s u p).2 = .fatal)
  ∧ (∀ st0 b0, τ 0 = .ok st0 b0 → τ 1 = .err "AbortError" →
      (DiagnosisRun τ s u p).2 = .state "not authorized" ∧
      (DiagnosisRun τ s u p).1.trace = [Req.loginPost s u p, Req.sysInfoGet s])
  ∧ (∀ st0 b0 e, τ 0 = .ok st0 b0 → e ≠ "AbortError" → τ 1 = .err e →
      (DiagnosisRun τ s u p).2 = .fatal)
  ∧ (∀ st0 b0 st2 b2, τ 0 = .ok st0 b0 → τ 1 = .ok st2 b2 →
      Req.logoutGet s ∈ (DiagnosisRun τ s u p).1.trace
      ∧ (∀ st3 b3, τ 2 = .ok st3 b3 →
          (DiagnosisRun τ s u p).2 =
            .state (if st2 = 200 then "authorized" else "not authorized"))
      ∧ (τ 2 = .err "AbortError" →
          (DiagnosisRun τ s u p).2 =
            .state (if st2 = 200 then "authorized" else "not authorized"))
      ∧ (∀ e, e ≠ "AbortError" → τ 2 = .err e → (DiagnosisRun τ s u p).2 = .fatal)) := by
  refine ⟨?_, ?_, ?_, ?_, ?_⟩
  · intro h0
    simp [DiagnosisRun, fetchStep, h0]
  · intro e he h0
    simp [DiagnosisRun, fetchStep, h0, he]
  · intro st0 b0 h0 h1
    simp [DiagnosisRun, fetchStep, h0, h1]
  · intro st0 b0 e h0 he h1
    simp [DiagnosisRun, fetchStep, h0, h1, he]
  · intro st0 b0 st2 b2 h0 h1
    refine ⟨?_, ?_, ?_, ?_⟩
    · cases hτ2 : τ 2 with
      | ok st3 b3 => simp [DiagnosisRun, fetchStep, h0, h1, hτ2]
      | err e2 => simp [DiagnosisRun, fetchStep, h0, h1, hτ2]
    · intro st3 b3 h2
      by_cases h200 : st2 = 200 <;>
        simp [DiagnosisRun, fetchStep, h0, h1, h2, h200]
    · intro h2
      by_cases h200 : st2 = 200 <;>
        simp [DiagnosisRun, fetchStep, h0, h1, h2, h200]
    · intro e he h2
      simp [DiagnosisRun, fetchStep, h0, h1, h2, he]

/-- Witness for C8 amended at a concrete all-ok transport: the probe ends
"authorized" and the logout request is in the trace. -/
theorem C8_amended_witness :
    Req.logoutGet "sw" ∈ (DiagnosisRun tOK "sw" "u" "p").1.trace
  ∧ (DiagnosisRun tOK "sw" "u" "p").2 = .state "authorized"
  ∧ (DiagnosisRun tC8 "sw" "u" "p").2 = .state "not accessible" := by
  have h := (C8_amended_states tOK "sw" "u" "p").2.2.2.2 200 "" 200 "" rfl rfl
  have h0 := ((C8_amended_states tC8 "sw" "u" "p").1 rfl).1
  exact ⟨h.1, by simpa using h.2.1 200 "" rfl, h0⟩
